import Mathlib

/-!
Verification development for the career-coach web backend
(`src/app/api/search-jobs/route.ts`, `src/app/api/job-statistics/route.ts`,
`src/lib/elasticsearch.ts`, and the scrape-jobs / scrape-linkedin route
handlers).  Each TypeScript function relevant to the specification is
shallowly embedded as an executable Lean definition; the external HTTP
services (scraper, search engine, LLM) are modelled as explicit oracle
parameters so that the handlers become pure functions of the oracles.
Long prompt prose and inert string constants are abbreviated where no
property depends on their exact wording; every structural element
(slots, separators, truncation bounds, field names) follows the source.
-/

/-! ## JavaScript string primitives

The route code uses `String.prototype.trim`, `toUpperCase`,
`toLowerCase`, and `substring(0, n)`.  These are modelled character-wise
(`toUpperCase`/`toLowerCase` at the ASCII level, matching
`Char.toUpper`/`Char.toLower`). -/

/-- Models JS `s.trim()`: strips leading and trailing whitespace
(structurally recursive so that concrete evaluation reduces in the
kernel, unlike `String.trim`). -/
def jsTrim (s : String) : String :=
  String.mk (((s.data.dropWhile Char.isWhitespace).reverse.dropWhile Char.isWhitespace).reverse)

/-- Models JS `s.toUpperCase()` (character-wise ASCII uppercasing). -/
def jsToUpperCase (s : String) : String :=
  String.mk (s.data.map Char.toUpper)

/-- Models JS `s.toLowerCase()` (character-wise ASCII lowercasing). -/
def jsToLowerCase (s : String) : String :=
  String.mk (s.data.map Char.toLower)

/-- Models JS `s.substring(0, n)`: the first `n` characters of `s`. -/
def substringTo (s : String) (n : Nat) : String :=
  String.mk (s.data.take n)

theorem substringTo_length_le (s : String) (n : Nat) :
    (substringTo s n).length ≤ n := by
  simp only [substringTo, String.length]
  simp [Nat.min_le_left n s.data.length]

/-! ## Sanitizer -/

/-- Modelled from the spec: `sanitizeInput` from `lib/security` (the file
is not present in the source tree; only its import sites are).  Per §4.1
of the spec it "returns a cleaned string with control characters and
markup-significant sequences neutralized, and rejects (or empties) blank
input".  Modelled as: blank input maps to the empty string, otherwise
control characters (code points below 32) and the markup characters
`<` and `>` are removed. -/
def sanitizeInput (s : String) : String :=
  if jsTrim s = "" then ""
  else String.mk (s.data.filter (fun c => 32 ≤ c.toNat && !(c == '<') && !(c == '>')))

/-! ## Data model: Elasticsearch job documents (`lib/elasticsearch.ts`) -/

/-- `INDEX_NAME` constant from `lib/elasticsearch.ts`. -/
def INDEX_NAME : String := "linkedin-jobs-webhook"

/-- `ElasticsearchJobData` from `lib/elasticsearch.ts`.  Optional string
fields are modelled as plain strings defaulting to `""` (the mapping
code in the route handlers always fills them with `|| ''` defaults). -/
structure ElasticsearchJobData where
  id : String := ""
  title : String := ""
  company : String := ""
  location : String := ""
  description : String := ""
  salary : String := ""
  jobType : String := ""
  experienceLevel : String := ""
  postedDate : String := ""
  url : String := ""
  companySize : String := ""
  industry : String := ""
  requirements : List String := []
  benefits : List String := []
  scrapedAt : String := ""
  keywords : List String := []
deriving DecidableEq, Repr

/-- One document as written by the bulk path: the job record plus the
per-record placeholder vector (`Math.random()` values, supplied here by
the oracle) and the composite lexical `text` field. -/
structure BulkDoc where
  job : ElasticsearchJobData
  vector : List ℚ
  text : String
deriving DecidableEq, Repr

/-- One newline-delimited line of the `_bulk` request body: either an
action line `{index: {_index: INDEX_NAME}}` or a document line. -/
inductive BulkLine where
  | action (indexName : String)
  | doc (d : BulkDoc)
deriving DecidableEq, Repr

/-- A single batched write request against the search service. -/
structure BulkRequest where
  endpoint : String
  lines : List BulkLine
deriving DecidableEq, Repr

/-- The document line built for one job in `bulkSaveJobsToElasticsearch`:
spreads the job, attaches the placeholder `vector`, and synthesizes
`text` as `` `${job.title || ''} ${job.company || ''} ${job.description || ''}`.trim() ``. -/
def mkBulkDoc (vec : List ℚ) (j : ElasticsearchJobData) : BulkDoc :=
  { job := j
    vector := vec
    text := jsTrim (j.title ++ " " ++ j.company ++ " " ++ j.description) }

/-- The body of the `_bulk` request: for the i-th job, an action line
followed by its document line (`jobs.map(job => [action, doc]).flat()`
in the source, with the i-th placeholder vector drawn from `vecs`). -/
def bulkBody (vecs : Nat → List ℚ) (i : Nat) : List ElasticsearchJobData → List BulkLine
  | [] => []
  | j :: rest =>
      BulkLine.action INDEX_NAME :: BulkLine.doc (mkBulkDoc (vecs i) j) :: bulkBody vecs (i + 1) rest

/-- `bulkSaveJobsToElasticsearch` from `lib/elasticsearch.ts`, viewed as
the list of network requests it issues: none when `jobs.length === 0`
(early return before any `fetch`), otherwise exactly one `POST /_bulk`
request whose body is the newline-joined serialization of
`bulkBody` (one JSON line per element). -/
def bulkSaveJobsToElasticsearch (vecs : Nat → List ℚ) (jobs : List ElasticsearchJobData) :
    List BulkRequest :=
  if jobs.length = 0 then []
  else [{ endpoint := "/_bulk", lines := bulkBody vecs 0 jobs }]

theorem bulkBody_length (vecs : Nat → List ℚ) (jobs : List ElasticsearchJobData) :
    ∀ i, (bulkBody vecs i jobs).length = 2 * jobs.length := by
  induction jobs with
  | nil => intro i; simp [bulkBody]
  | cons j rest ih =>
      intro i
      simp [bulkBody, ih (i + 1)]
      ring

/-! ## Search bodies (`textSearchJobs` in `search-jobs/route.ts` and
`searchJobsFromElasticsearch` in `lib/elasticsearch.ts`) -/

/-- One entry of a `multi_match` `fields` array, e.g. `'title^2'`:
a field name together with its boost. -/
structure MultiMatchField where
  name : String
  boost : ℚ
deriving DecidableEq, Repr

/-- The `sort` clause of a search body. -/
structure SortSpec where
  field : String
  order : String
deriving DecidableEq, Repr

/-- The search request body (`multi_match` query, `size`, `sort`). -/
structure SearchBody where
  query : String
  fields : List MultiMatchField
  matchType : String
  fuzziness : String
  size : Nat
  sort : SortSpec
deriving DecidableEq, Repr

/-- The body built by `textSearchJobs` in `search-jobs/route.ts`:
fields `['title^2', 'company^1.5', 'description', 'industry', 'location', 'text']`,
`type: 'best_fields'`, `fuzziness: 'AUTO'`, `size: 50`,
`sort: [{scrapedAt: {order: 'desc'}}]`. -/
def textSearchJobsBody (q : String) : SearchBody :=
  { query := q
    fields := [⟨"title", 2⟩, ⟨"company", 3/2⟩, ⟨"description", 1⟩,
               ⟨"industry", 1⟩, ⟨"location", 1⟩, ⟨"text", 1⟩]
    matchType := "best_fields"
    fuzziness := "AUTO"
    size := 50
    sort := ⟨"scrapedAt", "desc"⟩ }

/-- The body built by `searchJobsFromElasticsearch` in
`lib/elasticsearch.ts` (same shape, without the `text` field). -/
def searchJobsFromElasticsearchBody (q : String) : SearchBody :=
  { query := q
    fields := [⟨"title", 2⟩, ⟨"company", 3/2⟩, ⟨"description", 1⟩,
               ⟨"industry", 1⟩, ⟨"location", 1⟩]
    matchType := "best_fields"
    fuzziness := "AUTO"
    size := 50
    sort := ⟨"scrapedAt", "desc"⟩ }

/-- One hit of the search response (`hits.hits[i]`). -/
structure EsHit where
  source : ElasticsearchJobData
  hitId : String
  score : ℚ
deriving DecidableEq, Repr

/-- A returned search result: `{...hit._source, _id: hit._id, _score: hit._score}`. -/
structure SearchedJob where
  source : ElasticsearchJobData
  hitId : String
  score : ℚ
deriving DecidableEq, Repr

/-- The mapping applied to `response.hits.hits` by both search functions. -/
def searchHitsToJobs (hits : List EsHit) : List SearchedJob :=
  hits.map (fun h => { source := h.source, hitId := h.hitId, score := h.score })

/-! ## LinkedIn profile scraping (`scrape-linkedin` route handler) -/

/-- An entry of the `experiences` / `volunteerAndAwards` lists (the
fields beyond `title` are irrelevant to every claim and elided). -/
structure LinkedInExperience where
  title : String := ""
deriving DecidableEq, Repr

/-- An entry of the `educations` list. -/
structure LinkedInEducation where
  title : String := ""
deriving DecidableEq, Repr

/-- An entry of the `skills` list. -/
structure LinkedInSkill where
  title : String := ""
deriving DecidableEq, Repr

/-- An entry of the `licenseAndCertificates` list. -/
structure LinkedInCertificate where
  title : String := ""
deriving DecidableEq, Repr

/-- An entry of the `interests` list. -/
structure LinkedInInterest where
  sectionName : String := ""
deriving DecidableEq, Repr

/-- The raw profile payload returned by the scraping service
(every field optional, as in the Apify response). -/
structure RawProfileData where
  firstName : Option String := none
  lastName : Option String := none
  fullName : Option String := none
  headline : Option String := none
  connections : Option Nat := none
  followers : Option Nat := none
  about : Option String := none
  jobTitle : Option String := none
  companyName : Option String := none
  companyIndustry : Option String := none
  experiences : Option (List LinkedInExperience) := none
  educations : Option (List LinkedInEducation) := none
  skills : Option (List LinkedInSkill) := none
  licenseAndCertificates : Option (List LinkedInCertificate) := none
  volunteerAndAwards : Option (List LinkedInExperience) := none
  interests : Option (List LinkedInInterest) := none
deriving DecidableEq, Repr

/-- The processed `LinkedInProfileData` record (scalar fields beyond the
claims elided to the ones the mapping defaults: names, headline, counts,
about, current role; all list fields kept). -/
structure LinkedInProfileData where
  linkedinUrl : String
  firstName : String
  lastName : String
  fullName : String
  headline : String
  connections : Nat
  followers : Nat
  about : String
  jobTitle : String
  companyName : String
  companyIndustry : String
  experiences : List LinkedInExperience
  educations : List LinkedInEducation
  skills : List LinkedInSkill
  licenseAndCertificates : List LinkedInCertificate
  volunteerAndAwards : List LinkedInExperience
  interests : List LinkedInInterest
  scrapedAt : String
deriving DecidableEq, Repr

/-- `processedData` as built in the scrape-linkedin handler (identical
blocks on the sync path and on the async-polling path):
`profileData.<field> || <default>` for scalars,
`profileData.<list>?.slice(0, cap) || []` for the capped lists, and
`profileData.interests || []` (no slice) for interests;
`scrapedAt: new Date().toISOString()` is the `now` parameter. -/
def processProfileData (sanitizedUrl now : String) (p : RawProfileData) : LinkedInProfileData :=
  { linkedinUrl := sanitizedUrl
    firstName := p.firstName.getD ""
    lastName := p.lastName.getD ""
    fullName := p.fullName.getD ""
    headline := p.headline.getD ""
    connections := p.connections.getD 0
    followers := p.followers.getD 0
    about := p.about.getD ""
    jobTitle := p.jobTitle.getD ""
    companyName := p.companyName.getD ""
    companyIndustry := p.companyIndustry.getD ""
    experiences := (p.experiences.map (fun l => l.take 5)).getD []
    educations := (p.educations.map (fun l => l.take 3)).getD []
    skills := (p.skills.map (fun l => l.take 15)).getD []
    licenseAndCertificates := (p.licenseAndCertificates.map (fun l => l.take 5)).getD []
    volunteerAndAwards := (p.volunteerAndAwards.map (fun l => l.take 3)).getD []
    interests := p.interests.getD []
    scrapedAt := now }

/-! ### The scrape handlers' external world

Both scrape handlers follow the same two-phase strategy: a synchronous
`run-sync-get-dataset-items` call, then an asynchronous run with a
polling loop.  The outcomes of the external calls are supplied as an
explicit world value. -/

/-- Outcome of the synchronous scrape call: the `fetch`/`json` threw, the
response was non-OK, or it returned a (possibly empty) item list. -/
inductive SyncOutcome (α : Type) where
  | thrown
  | nonOk
  | ok (items : List α)
deriving DecidableEq, Repr

/-- Outcome of starting the asynchronous run (`POST /runs`). -/
inductive RunStartOutcome where
  | thrown
  | nonOk
  | started
deriving DecidableEq, Repr

/-- Outcome of one polling iteration's dataset-items fetch. -/
inductive PollFetch (α : Type) where
  | thrown
  | nonOk
  | ok (items : List α)
deriving DecidableEq, Repr

/-- One iteration of the polling loop: the dataset-items fetch outcome,
and whether the status endpoint (consulted only when the fetch did not
throw) reports the terminal `FAILED` status. -/
structure PollStep (α : Type) where
  fetch : PollFetch α
  statusFailed : Bool
deriving DecidableEq, Repr

/-- Result of running the polling loop to completion. -/
inductive PollOutcome (α : Type) where
  | found (items : List α)
  | failed
  | exhausted
deriving DecidableEq, Repr

/-- The polling loop, one step per attempt: a non-empty dataset breaks
out with the items; otherwise a `FAILED` status aborts; a thrown fetch
skips the status check; in all other cases the loop continues to the
next attempt and is exhausted when the attempt budget runs out. -/
def pollLoop {α : Type} : List (PollStep α) → PollOutcome α
  | [] => .exhausted
  | p :: rest =>
      match p.fetch with
      | .thrown => pollLoop rest
      | .nonOk => if p.statusFailed then .failed else pollLoop rest
      | .ok items =>
          if items.length ≠ 0 then .found items
          else if p.statusFailed then .failed else pollLoop rest

/-- A polling step that neither yields items nor reports failure. -/
def silentStep {α : Type} [DecidableEq α] (p : PollStep α) : Bool :=
  p.statusFailed = false &&
    match p.fetch with
    | .ok items => items.isEmpty
    | _ => true

theorem pollLoop_exhausted {α : Type} [DecidableEq α] (ps : List (PollStep α))
    (h : ∀ p ∈ ps, silentStep p = true) : pollLoop ps = .exhausted := by
  induction ps with
  | nil => rfl
  | cons p rest ih =>
      have hp := h p (List.mem_cons_self p rest)
      have hrest := ih (fun q hq => h q (List.mem_cons_of_mem p hq))
      simp only [silentStep, Bool.and_eq_true, decide_eq_true_eq] at hp
      obtain ⟨hstat, hfetch⟩ := hp
      cases hf : p.fetch with
      | thrown => simp [pollLoop, hf, hrest]
      | nonOk => simp [pollLoop, hf, hstat, hrest]
      | ok items =>
          rw [hf] at hfetch
          simp only at hfetch
          have : items = [] := List.isEmpty_iff.mp hfetch
          simp [pollLoop, hf, this, hstat, hrest]

/-- Whether the synchronous phase failed to produce results (threw, was
non-OK, or returned zero items), so that the handler falls through to
the asynchronous phase. -/
def syncNoResults {α : Type} [DecidableEq α] : SyncOutcome α → Bool
  | .thrown => true
  | .nonOk => true
  | .ok items => items.isEmpty

/-! ## Job scraping (`scrape-jobs` route handler, `src/unnamed/part_002`) -/

/-- JS `a || b` on optional strings: `undefined` and the empty string
are falsy and give the default. -/
def jsOrStr (o : Option String) (d : String) : String :=
  match o with
  | some s => if s = "" then d else s
  | none => d

/-- JS `a || b` on optional numbers: `undefined` and `0` are falsy. -/
def jsOrNat (o : Option Nat) (d : Nat) : Nat :=
  match o with
  | some n => if n = 0 then d else n
  | none => d

/-- A raw job item from the scraping service (every field optional). -/
structure RawJob where
  id : Option String := none
  link : Option String := none
  title : Option String := none
  companyName : Option String := none
  location : Option String := none
  postedAt : Option String := none
  benefits : Option (List String) := none
  descriptionHtml : Option String := none
  descriptionText : Option String := none
  salary : Option String := none
  seniorityLevel : Option String := none
  employmentType : Option String := none
  industries : Option String := none
  companyEmployeesCount : Option Nat := none
deriving DecidableEq, Repr

/-- The processed job record returned by the scrape-jobs handler
(fields not consulted by any claim or mapping are elided;
`companySize`/`companyIndustry`/`jobUrl` appear only on demo records). -/
structure JobData where
  id : String := ""
  link : String := ""
  title : String := ""
  companyName : String := ""
  location : String := ""
  postedAt : String := ""
  benefits : List String := []
  descriptionHtml : String := ""
  descriptionText : String := ""
  description : String := ""
  salary : String := ""
  seniorityLevel : String := ""
  employmentType : String := ""
  jobType : String := ""
  industries : String := ""
  companyEmployeesCount : Nat := 0
  jobUrl : String := ""
  companySize : String := ""
  companyIndustry : String := ""
  requirements : List String := []
  scrapedAt : String := ""
deriving DecidableEq, Repr

/-- The per-item mapping applied to scraped results on both the sync and
the async path of the scrape-jobs handler (`job.<field> || <default>`,
with `location` defaulting to the request's location parameter and
`scrapedAt: new Date().toISOString()` as the `now` parameter). -/
def processJob (location now : String) (j : RawJob) : JobData :=
  { id := jsOrStr j.id ""
    link := jsOrStr j.link ""
    title := jsOrStr j.title ""
    companyName := jsOrStr j.companyName ""
    location := jsOrStr j.location location
    postedAt := jsOrStr j.postedAt ""
    benefits := j.benefits.getD []
    descriptionHtml := jsOrStr j.descriptionHtml ""
    descriptionText := jsOrStr j.descriptionText ""
    salary := jsOrStr j.salary ""
    seniorityLevel := jsOrStr j.seniorityLevel ""
    employmentType := jsOrStr j.employmentType ""
    industries := jsOrStr j.industries ""
    companyEmployeesCount := jsOrNat j.companyEmployeesCount 0
    scrapedAt := now }

/-- The three fixed placeholder records returned by the scrape-jobs
handler's outer `catch` block (descriptions abbreviated; identifiers,
titles, companies, locations and salaries as in the source). -/
def demoJobs (keywords now : String) : List JobData :=
  [ { id := "demo-1", title := "Senior " ++ keywords, companyName := "Google"
      location := "Mountain View, CA", salary := "$120,000 - $180,000"
      jobType := "Full-time", seniorityLevel := "Senior level"
      postedAt := now, jobUrl := "https://careers.google.com"
      companySize := "10,001+ employees", companyIndustry := "Technology"
      scrapedAt := now }
  , { id := "demo-2", title := keywords ++ " Engineer", companyName := "Microsoft"
      location := "Seattle, WA", salary := "$110,000 - $160,000"
      jobType := "Full-time", seniorityLevel := "Mid-Senior level"
      postedAt := now, jobUrl := "https://careers.microsoft.com"
      companySize := "10,001+ employees", companyIndustry := "Technology"
      scrapedAt := now }
  , { id := "demo-3", title := "Lead " ++ keywords, companyName := "Amazon"
      location := "Austin, TX", salary := "$130,000 - $200,000"
      jobType := "Full-time", seniorityLevel := "Senior level"
      postedAt := now, jobUrl := "https://amazon.jobs"
      companySize := "10,001+ employees", companyIndustry := "E-commerce"
      scrapedAt := now } ]

/-- The `ElasticsearchJobData` document built from one processed job in
the scrape-jobs handler.  Note: the `keywords` tag uses the handler's
RAW `keywords` request parameter (`[keywords.toLowerCase()]`), not
`sanitizedKeywords`. -/
def scrapeJobsEsDoc (keywords : String) (job : JobData) : ElasticsearchJobData :=
  { id := job.id
    title := job.title
    company := job.companyName
    location := job.location
    description := if job.descriptionText ≠ "" then job.descriptionText else job.descriptionHtml
    salary := job.salary
    jobType := job.employmentType
    experienceLevel := job.seniorityLevel
    postedDate := job.postedAt
    url := job.link
    companySize := toString job.companyEmployeesCount
    industry := job.industries
    requirements := []
    benefits := job.benefits
    scrapedAt := job.scrapedAt
    keywords := [jsToLowerCase keywords] }

/-- The two values fed through `encodeURIComponent` into the LinkedIn
job-search URL: the handler uses the SANITIZED keywords and location
here. -/
structure JobSearchUrlParts where
  keywordsParam : String
  locationParam : String
deriving DecidableEq, Repr

/-- The search-URL parameters built by the scrape-jobs handler. -/
def jobSearchUrlParts (keywords location : String) : JobSearchUrlParts :=
  { keywordsParam := jsTrim (sanitizeInput keywords)
    locationParam := sanitizeInput location }

/-- A `{success, data|error}` HTTP response envelope. -/
inductive ApiResponse (α : Type) where
  | success (data : α)
  | error (msg : String) (status : Nat)
deriving DecidableEq, Repr

/-- The external-call outcomes consumed by one run of the scrape-jobs
handler. -/
structure ScrapeWorld where
  /-- whether `initializeElasticsearchIndex()` succeeded (its failure is
  caught and ignored by this handler) -/
  initOk : Bool
  /-- whether `APIFY_API_TOKEN` and `APIFY_ACTOR_ID` are both set -/
  hasCreds : Bool
  syncOutcome : SyncOutcome RawJob
  runStart : RunStartOutcome
  polls : List (PollStep RawJob)
deriving DecidableEq, Repr

/-- What one run of the scrape-jobs handler did. -/
structure ScrapeResult where
  response : ApiResponse (List JobData)
  /-- whether the handler reached the scraping phase at all -/
  scrapeAttempted : Bool
  /-- the documents passed to `bulkSaveJobsToElasticsearch` (empty when
  the bulk write is never reached) -/
  indexedDocs : List ElasticsearchJobData
deriving DecidableEq, Repr

/-- The scrape-jobs POST handler (`handleJobScraping`): sanitize and
validate the keywords; call the index-mapping setup and IGNORE its
failure; require credentials; try the sync call (non-empty results are
mapped, bulk-indexed — write failures swallowed — and returned); on any
sync shortfall start an async run: a thrown start reaches the outer
`catch` and yields the demo records, a non-OK start is an error, and
otherwise the polling loop (24 attempts) either finds results (mapped,
bulk-indexed, returned), sees `FAILED` (error), or exhausts
(timeout error). -/
def handleJobScraping (keywords location : String) (now : String) (w : ScrapeWorld) :
    ScrapeResult :=
  let sanitizedKeywords := sanitizeInput keywords
  if jsTrim sanitizedKeywords = "" then
    ⟨.error "Job keywords are required" 400, false, []⟩
  else if w.hasCreds = false then
    ⟨.error "Service configuration error" 500, false, []⟩
  else
    match w.syncOutcome with
    | .ok results =>
        if results.length ≠ 0 then
          let processedJobs := results.map (processJob location now)
          let docs := processedJobs.map (scrapeJobsEsDoc keywords)
          ⟨.success processedJobs, true, docs⟩
        else handleJobScrapingAsync keywords location now w
    | _ => handleJobScrapingAsync keywords location now w
where
  /-- the async-run fallback phase of the handler -/
  handleJobScrapingAsync (keywords location now : String) (w : ScrapeWorld) : ScrapeResult :=
    match w.runStart with
    | .thrown => ⟨.success (demoJobs keywords now), true, []⟩
    | .nonOk => ⟨.error "Failed to start LinkedIn job scraping" 500, true, []⟩
    | .started =>
        match pollLoop (w.polls.take 24) with
        | .found items =>
            let jobData := items.map (processJob location now)
            let docs := jobData.map (scrapeJobsEsDoc keywords)
            ⟨.success jobData, true, docs⟩
        | .failed => ⟨.error "LinkedIn job scraping failed" 500, true, []⟩
        | .exhausted =>
            ⟨.error "LinkedIn job scraping timed out or no jobs found" 500, true, []⟩

/-- The external-call outcomes consumed by one run of the
scrape-linkedin handler. -/
structure ProfileScrapeWorld where
  hasCreds : Bool
  syncOutcome : SyncOutcome RawProfileData
  runStart : RunStartOutcome
  polls : List (PollStep RawProfileData)
deriving DecidableEq, Repr

/-- The scrape-linkedin POST handler (`handleLinkedInScraping`):
sanitize and validate the URL; require credentials; try the sync call
(non-empty results are mapped through `processProfileData` and
returned); otherwise start an async run: a thrown start reaches the
outer `catch` (internal-server error), a non-OK start is an error, and
otherwise the polling loop (20 attempts) either finds a profile
(`results[0]`, mapped and returned), sees `FAILED` (error), or exhausts
(timeout error).  Unlike the scrape-jobs handler there is no
demo-data fallback anywhere. -/
def handleLinkedInScraping (linkedinUrl : String) (now : String) (w : ProfileScrapeWorld) :
    ApiResponse LinkedInProfileData :=
  let sanitizedUrl := sanitizeInput linkedinUrl
  if sanitizedUrl = "" then
    .error "LinkedIn URL is required" 400
  else if w.hasCreds = false then
    .error "Service configuration error" 500
  else
    match w.syncOutcome with
    | .ok results =>
        match results with
        | r :: _ => .success (processProfileData sanitizedUrl now r)
        | [] => handleLinkedInScrapingAsync sanitizedUrl now w
    | _ => handleLinkedInScrapingAsync sanitizedUrl now w
where
  /-- the async-run fallback phase of the handler -/
  handleLinkedInScrapingAsync (sanitizedUrl now : String) (w : ProfileScrapeWorld) :
      ApiResponse LinkedInProfileData :=
    match w.runStart with
    | .thrown => .error "Internal server error during LinkedIn scraping" 500
    | .nonOk => .error "Failed to start LinkedIn scraping" 500
    | .started =>
        match pollLoop (w.polls.take 20) with
        | .found items =>
            match items with
            | r :: _ => .success (processProfileData sanitizedUrl now r)
            | [] => .error "LinkedIn scraping timed out or failed" 500
        | .failed => .error "LinkedIn scraping failed" 500
        | .exhausted => .error "LinkedIn scraping timed out or failed" 500

/-! ## Job statistics (`job-statistics/route.ts`) -/

/-- The external-call outcomes consumed by one run of the job-statistics
POST handler. -/
structure StatsWorld where
  /-- whether `initializeElasticsearchIndex()` succeeded; unlike the
  scrape-jobs handler, this handler aborts when it fails -/
  initOk : Bool
  hasCreds : Bool
  syncOutcome : SyncOutcome RawJob
  /-- the aggregation snapshot `getJobStatistics()` would return -/
  stats : String
deriving DecidableEq, Repr

/-- The success payload of the job-statistics POST handler. -/
structure StatsPayload where
  statistics : String
  message : String
deriving DecidableEq, Repr

/-- What one run of the job-statistics POST handler did. -/
structure StatsResult where
  response : ApiResponse StatsPayload
  scrapeAttempted : Bool
  indexedDocs : List ElasticsearchJobData
deriving DecidableEq, Repr

/-- The document mapping in the job-statistics handler (same field
mapping as the scrape-jobs handler, applied directly to the raw items;
the `keywords` tag again uses the RAW `keywords` parameter). -/
def jobStatisticsEsDoc (keywords location now : String) (j : RawJob) : ElasticsearchJobData :=
  scrapeJobsEsDoc keywords (processJob location now j)

/-- The job-statistics POST handler (`handleJobStatistics`): call the
index-mapping setup and ABORT with an error response when it fails
(before any scraping); require credentials; try the sync scrape call
(non-empty results are mapped, bulk-indexed, and the fresh statistics
returned); on any shortfall of the sync call (caught exception, non-OK
response, or zero items) fall through to returning the current
statistics with an in-progress message — there is no async phase
here. -/
def handleJobStatistics (keywords : String) (now : String) (w : StatsWorld) : StatsResult :=
  if w.initOk = false then
    ⟨.error "Elasticsearch connection failed" 500, false, []⟩
  else if w.hasCreds = false then
    ⟨.error "Service configuration error" 500, false, []⟩
  else
    match w.syncOutcome with
    | .ok results =>
        if results.length ≠ 0 then
          let docs := results.map (jobStatisticsEsDoc keywords "United States" now)
          ⟨.success ⟨w.stats,
              "Successfully collected and stored " ++ toString docs.length ++
                " job postings in the database."⟩, true, docs⟩
        else
          ⟨.success ⟨w.stats, "Data collection is in progress. Current statistics retrieved."⟩,
            true, []⟩
    | _ =>
        ⟨.success ⟨w.stats, "Data collection is in progress. Current statistics retrieved."⟩,
          true, []⟩

/-! ## Orchestration pipeline (`search-jobs/route.ts`) -/

/-- The LinkedIn snapshot optionally carried inside the request's
`userProfile` (fields consulted by the prompt builders). -/
structure LinkedinSnapshot where
  fullName : Option String := none
  jobTitle : Option String := none
  companyName : Option String := none
  companyIndustry : Option String := none
  about : Option String := none
deriving DecidableEq, Repr

/-- The request's `userProfile` object. -/
structure UserProfileReq where
  position : String
  experienceLevel : String
  linkedinData : Option LinkedinSnapshot := none
deriving DecidableEq, Repr

/-- One entry of the request's `chatHistory`. -/
structure ChatTurn where
  role : String
  content : String
deriving DecidableEq, Repr

/-- `job.<field> || 'N/A'` (JS: empty string is falsy). -/
def orNA (s : String) : String := if s = "" then "N/A" else s

/-- The LinkedIn block of the profile context shared by the prompt
builders; note the snapshot fields are interpolated RAW (no
`sanitizeInput`). -/
def linkedinContext (d : LinkedinSnapshot) : String :=
  "\n- LinkedIn Profile: " ++ (jsOrStr d.fullName "Available") ++
  "\n- Current Role: " ++ (jsOrStr d.jobTitle "N/A") ++
  "\n- Company: " ++ (jsOrStr d.companyName "N/A") ++
  "\n- Industry: " ++ (jsOrStr d.companyIndustry "N/A") ++ "\n"

/-- The profile context of the Decide prompt: sanitized position and
experience level, plus the raw LinkedIn block when present. -/
def decideProfileContext (up : Option UserProfileReq) : String :=
  match up with
  | none => ""
  | some p =>
      "\nUser Profile:\n- Position: " ++ sanitizeInput p.position ++
      "\n- Experience Level: " ++ sanitizeInput p.experienceLevel ++
      (match p.linkedinData with
       | some d => linkedinContext d
       | none => "") ++ "\n"

/-- The classification prompt of `shouldSearchElasticsearch` (the long
instruction prose between the slots is abbreviated to fixed markers;
the slot structure — profile context, then `User Question:` with the
sanitized question, then the YES/NO instruction — follows the
source). -/
def decidePrompt (userQuestion : String) (up : Option UserProfileReq) : String :=
  "You are ShekarchAI, an expert career coach. Decide if the question requires current job market data.\n\n"
    ++ decideProfileContext up
    ++ "\n\nUser Question: " ++ sanitizeInput userQuestion
    ++ "\n\nRespond with ONLY \"YES\" if you need job market data, or \"NO\" if you do not need it."

/-- The Decide step's interpretation of the LLM answer:
`response.trim().toUpperCase() === 'YES'`. -/
def shouldSearchElasticsearch (response : String) : Bool :=
  jsToUpperCase (jsTrim response) == "YES"

/-- The Query-Generate step's treatment of the LLM answer:
`response.trim()`, used verbatim as the search query. -/
def generateSearchQuery (response : String) : String :=
  jsTrim response

/-- The profile context of the Compose prompt (sanitized position and
level; raw LinkedIn fields, with `about` cut to 300 characters). -/
def composeProfileContext (up : Option UserProfileReq) : String :=
  match up with
  | none => ""
  | some p =>
      "\nUser Profile:\n- Position: " ++ sanitizeInput p.position ++
      "\n- Experience Level: " ++ sanitizeInput p.experienceLevel ++
      (match p.linkedinData with
       | some d => linkedinContext d ++ "- About: " ++ substringTo (d.about.getD "") 300 ++ "...\n"
       | none => "") ++ "\n"

/-- The rendering of one retrieved job in the Compose prompt
(description cut to 150 characters, missing fields shown as `N/A`). -/
def jobSnippetLine (idx : Nat) (job : SearchedJob) : String :=
  "\n" ++ toString (idx + 1) ++ ". " ++ orNA job.source.title ++ " at " ++ orNA job.source.company ++
  "\n   Location: " ++ orNA job.source.location ++
  "\n   Type: " ++ orNA job.source.jobType ++
  "\n   Experience: " ++ orNA job.source.experienceLevel ++
  "\n   Salary: " ++ (if job.source.salary = "" then "Not specified" else job.source.salary) ++
  "\n   Description: " ++ substringTo job.source.description 150 ++ "...\n"

/-- `searchResults.slice(0, 8)`: the at-most-8 jobs rendered into the
Compose prompt. -/
def jobSnippetWindow (searchResults : List SearchedJob) : List SearchedJob :=
  searchResults.take 8

/-- The job-market block of the Compose prompt. -/
def searchContext (searchResults : List SearchedJob) : String :=
  if searchResults.length ≠ 0 then
    "\nCurrent Job Market Data (" ++ toString searchResults.length ++ " recent jobs found):\n" ++
      String.intercalate "\n"
        (((jobSnippetWindow searchResults).enum).map (fun p => jobSnippetLine p.1 p.2)) ++ "\n"
  else ""

/-- `chatHistory.slice(-6)`: the at-most-6 most recent turns rendered
into the Compose prompt. -/
def conversationWindow (chatHistory : List ChatTurn) : List ChatTurn :=
  chatHistory.drop (chatHistory.length - 6)

/-- The rendering of one conversation turn in the Compose prompt
(content cut to 200 characters, with a `...` marker when longer). -/
def conversationTurnLine (msg : ChatTurn) : String :=
  (if msg.role == "user" then "User" else "Assistant") ++ ": " ++
    substringTo msg.content 200 ++
    (if 200 < msg.content.length then "..." else "")

/-- The conversation-history block of the Compose prompt. -/
def conversationContext (chatHistory : List ChatTurn) : String :=
  if chatHistory.length ≠ 0 then
    "\nRecent Conversation History:\n" ++
      String.intercalate "\n" ((conversationWindow chatHistory).map conversationTurnLine) ++ "\n"
  else ""

/-- The final prompt of `generateFinalResponse` (instruction prose
abbreviated; slot order — profile context, job-market block,
conversation block, `User Question:` with the sanitized question,
instructions — follows the source). -/
def composePrompt (userQuestion : String) (up : Option UserProfileReq)
    (searchResults : List SearchedJob) (chatHistory : List ChatTurn) : String :=
  "You are ShekarchAI, an expert career coach and AI assistant.\n\n"
    ++ composeProfileContext up ++ "\n\n"
    ++ searchContext searchResults ++ "\n\n"
    ++ conversationContext chatHistory
    ++ "\n\nUser Question: " ++ sanitizeInput userQuestion
    ++ "\n\nInstructions: respond as a natural conversation with the user."

/-- The three LLM answers one request would receive (the model treats
the LLM calls as succeeding; a thrown LLM call is caught once at the
orchestration boundary and converted to a fixed apology, a path no
claim here depends on). -/
structure LLMOracle where
  decideResp : String
  queryResp : String
  finalResp : String
deriving DecidableEq, Repr

/-- The four pipeline steps of the orchestration handler. -/
inductive PipelineStep where
  | decide
  | queryGenerate
  | retrieve
  | compose
deriving DecidableEq, Repr

/-- The success payload of the orchestration (POST) handler. -/
structure JobSearchPayload where
  jobs : List SearchedJob
  aiResponse : String
  totalHits : Nat
deriving DecidableEq, Repr

/-- What one run of the orchestration handler did. -/
structure OrchestrationResult where
  steps : List PipelineStep
  searchQueryUsed : Option String
  composeJobs : List SearchedJob
  composePromptBuilt : String
  response : ApiResponse JobSearchPayload
deriving Repr

/-- The orchestration (POST) handler `handleJobSearch`: sanitize and
validate the query; Decide via the LLM; when the decision is YES,
Query-Generate (the trimmed LLM output used verbatim), Retrieve via
`textSearchJobs` (a search failure is caught and an empty result set
substituted), then Compose with the retrieved jobs; otherwise skip
Query-Generate and Retrieve and Compose with an empty job list.  The
success envelope carries the jobs, the composed answer, and
`totalHits = jobs.length`. -/
def handleJobSearch (query : String) (up : Option UserProfileReq)
    (chatHistory : List ChatTurn) (llm : LLMOracle)
    (search : String → Except Unit (List EsHit)) : OrchestrationResult :=
  let sanitizedQuery := sanitizeInput query
  if jsTrim sanitizedQuery = "" then
    ⟨[], none, [], "", .error "Search query is required" 400⟩
  else if shouldSearchElasticsearch llm.decideResp then
    let searchQuery := generateSearchQuery llm.queryResp
    let searchResults :=
      match search searchQuery with
      | .ok hits => searchHitsToJobs hits
      | .error _ => []
    ⟨[.decide, .queryGenerate, .retrieve, .compose], some searchQuery, searchResults,
      composePrompt sanitizedQuery up searchResults chatHistory,
      .success ⟨searchResults, llm.finalResp, searchResults.length⟩⟩
  else
    ⟨[.decide, .compose], none, [],
      composePrompt sanitizedQuery up [] chatHistory,
      .success ⟨[], llm.finalResp, 0⟩⟩

/-- The success payload of the simple (GET) search handler. -/
structure GetSearchPayload where
  jobs : List SearchedJob
  totalHits : Nat
deriving DecidableEq, Repr

/-- The simple (GET) search handler `handleGetJobSearch`: sanitize the
query, call `textSearchJobs` directly, and — unlike the orchestration
path — PROPAGATE a search failure to the caller as a 500 error
response; on success return the first `limit` results. -/
def handleGetJobSearch (query : String) (limit : Nat)
    (search : String → Except Unit (List EsHit)) : ApiResponse GetSearchPayload :=
  match search (sanitizeInput query) with
  | .error _ => .error "Search service temporarily unavailable" 500
  | .ok hits =>
      let searchResults := searchHitsToJobs hits
      .success ⟨searchResults.take limit, searchResults.length⟩

/-! ## Helper lemmas -/

theorem jsToUpperCase_eq_yes_iff (s : String) :
    jsToUpperCase s = "YES" ↔
      ∃ c1 c2 c3, s.data = [c1, c2, c3] ∧
        c1.toUpper = 'Y' ∧ c2.toUpper = 'E' ∧ c3.toUpper = 'S' := by
  constructor
  · intro h
    have hd : s.data.map Char.toUpper = ['Y', 'E', 'S'] := congrArg String.data h
    rcases hl : s.data with _ | ⟨a, _ | ⟨b, _ | ⟨c, _ | ⟨d, l⟩⟩⟩⟩ <;>
      rw [hl] at hd <;> simp at hd
    obtain ⟨h1, h2, h3⟩ := hd
    exact ⟨a, b, c, rfl, h1, h2, h3⟩
  · rintro ⟨c1, c2, c3, hs, h1, h2, h3⟩
    show String.mk (s.data.map Char.toUpper) = "YES"
    rw [hs]
    show String.mk [c1.toUpper, c2.toUpper, c3.toUpper] = "YES"
    rw [h1, h2, h3]

theorem capped_list_length_le {α : Type} (o : Option (List α)) (n : Nat) :
    ((o.map (fun l => l.take n)).getD []).length ≤ n := by
  cases o with
  | none => simp
  | some l => simp [List.length_take]

theorem handleJobScrapingAsync_attempted (keywords location now : String) (w : ScrapeWorld) :
    (handleJobScraping.handleJobScrapingAsync keywords location now w).scrapeAttempted = true := by
  unfold handleJobScraping.handleJobScrapingAsync
  cases w.runStart with
  | thrown => rfl
  | nonOk => rfl
  | started => cases pollLoop (w.polls.take 24) <;> rfl

theorem handleJobScrapingAsync_docs_keywords (keywords location now : String) (w : ScrapeWorld) :
    ∀ d ∈ (handleJobScraping.handleJobScrapingAsync keywords location now w).indexedDocs,
      d.keywords = [jsToLowerCase keywords] := by
  unfold handleJobScraping.handleJobScrapingAsync
  cases w.runStart with
  | thrown => intro d hd; simp at hd
  | nonOk => intro d hd; simp at hd
  | started =>
      cases hp : pollLoop (w.polls.take 24) with
      | found items =>
          intro d hd
          simp only [hp] at hd
          simp only [List.mem_map] at hd
          obtain ⟨j, _, rfl⟩ := hd
          rfl
      | failed => intro d hd; simp [hp] at hd
      | exhausted => intro d hd; simp [hp] at hd

/-! ## Claim theorems -/

/-- C6: `bulkSaveJobsToElasticsearch` on an empty record list issues no
network request; on a non-empty list of N records it issues exactly one
batched `_bulk` write whose body holds `2 * N` newline-delimited lines
(one action line and one document line per record). -/
theorem c6_bulk_index_lines (vecs : Nat → List ℚ) (jobs : List ElasticsearchJobData) :
    bulkSaveJobsToElasticsearch vecs [] = [] ∧
    (jobs ≠ [] →
      bulkSaveJobsToElasticsearch vecs jobs =
        [{ endpoint := "/_bulk", lines := bulkBody vecs 0 jobs }] ∧
      (bulkBody vecs 0 jobs).length = 2 * jobs.length) := by
  constructor
  · rfl
  · intro h
    have hlen : jobs.length ≠ 0 := by
      simpa using fun hh => h (List.length_eq_zero.mp hh)
    exact ⟨by simp [bulkSaveJobsToElasticsearch, hlen], bulkBody_length vecs jobs 0⟩

/-- C6 witness: concrete evaluation on one record. -/
theorem c6_bulk_index_lines_witness :
    [({ id := "j1" } : ElasticsearchJobData)] ≠ [] ∧
    (bulkBody (fun _ => [1, 2, 3]) 0 [{ id := "j1" }]).length = 2 * 1 := by
  refine ⟨by simp, ?_⟩
  exact ((c6_bulk_index_lines (fun _ => [1, 2, 3]) [{ id := "j1" }]).2 (by simp)).2

/-- C7: both search-body builders issue a `multi_match` with fuzziness
over the title/company/description/industry/location fields, with
`title` carrying the strictly greatest boost (2, against 1.5 and 1),
request `size = 50`, and sort by `scrapedAt` descending; and as long as
the service honours the requested `size`, the mapped result list has at
most 50 entries. -/
theorem c7_text_search_shape (q : String) :
    (textSearchJobsBody q).size = 50 ∧
    (textSearchJobsBody q).sort = ⟨"scrapedAt", "desc"⟩ ∧
    (textSearchJobsBody q).fuzziness = "AUTO" ∧
    ⟨"title", 2⟩ ∈ (textSearchJobsBody q).fields ∧
    (∀ f ∈ (textSearchJobsBody q).fields, f.name ≠ "title" → f.boost < 2) ∧
    (textSearchJobsBody q).fields.map MultiMatchField.name =
      ["title", "company", "description", "industry", "location", "text"] ∧
    (searchJobsFromElasticsearchBody q).size = 50 ∧
    (searchJobsFromElasticsearchBody q).sort = ⟨"scrapedAt", "desc"⟩ ∧
    ⟨"title", 2⟩ ∈ (searchJobsFromElasticsearchBody q).fields ∧
    (∀ f ∈ (searchJobsFromElasticsearchBody q).fields, f.name ≠ "title" → f.boost < 2) ∧
    (searchJobsFromElasticsearchBody q).fields.map MultiMatchField.name =
      ["title", "company", "description", "industry", "location"] ∧
    (∀ hits : List EsHit, hits.length ≤ (textSearchJobsBody q).size →
      (searchHitsToJobs hits).length ≤ 50) := by
  refine ⟨rfl, rfl, rfl, by simp [textSearchJobsBody], ?_, rfl, rfl, rfl,
    by simp [searchJobsFromElasticsearchBody], ?_, rfl, ?_⟩
  · intro f hf hname
    simp [textSearchJobsBody] at hf
    rcases hf with h | h | h | h | h | h <;> (subst h; simp_all; try norm_num)
  · intro f hf hname
    simp [searchJobsFromElasticsearchBody] at hf
    rcases hf with h | h | h | h | h <;> (subst h; simp_all; try norm_num)
  · intro hits h
    simpa [searchHitsToJobs, textSearchJobsBody] using h

/-- C7 witness: concrete evaluation at a concrete query and hit list. -/
theorem c7_text_search_shape_witness :
    ([⟨{ id := "j1" }, "h1", 1⟩] : List EsHit).length ≤ (textSearchJobsBody "data scientist").size ∧
    (searchHitsToJobs [⟨{ id := "j1" }, "h1", 1⟩]).length ≤ 50 := by
  refine ⟨by simp [textSearchJobsBody], ?_⟩
  exact (c7_text_search_shape "data scientist").2.2.2.2.2.2.2.2.2.2.2
    [⟨{ id := "j1" }, "h1", 1⟩] (by simp [textSearchJobsBody])

/-- A raw profile payload whose `interests` list has 16 entries (more
than any cap the spec names for a profile list field). -/
def rawProfileManyInterests : RawProfileData :=
  { fullName := some "Jane Roe"
    interests := some (List.replicate 16 ⟨"artificial intelligence"⟩) }

/-- C4 counterexample: on the profile record built by the scrape-linkedin
handler, the `interests` list is NOT truncated at capture time — a
payload with 16 interests keeps all 16 (every cap the claim names is at
most 15), refuting "this truncation applies to every listed list field,
including interests". -/
theorem c4_interests_not_truncated_counterexample :
    (processProfileData "https://www.linkedin.com/in/jane" "2024-01-01T00:00:00.000Z"
        rawProfileManyInterests).interests.length = 16 ∧
    ¬ (processProfileData "https://www.linkedin.com/in/jane" "2024-01-01T00:00:00.000Z"
        rawProfileManyInterests).interests.length ≤ 15 := by
  constructor
  · rfl
  · decide

/-- C4 (amended): the profile record built by the scrape-linkedin
handler truncates experiences to 5, educations to 3, skills to 15,
certificates to 5 and awards to 3, and stamps the capture time — but the
`interests` list is passed through untruncated (`interests || []`, no
`slice`).  The same mapping is applied on the sync path and on the
async-polling path. -/
theorem c4_profile_truncation_amended (url now : String) (p : RawProfileData) :
    (processProfileData url now p).experiences.length ≤ 5 ∧
    (processProfileData url now p).educations.length ≤ 3 ∧
    (processProfileData url now p).skills.length ≤ 15 ∧
    (processProfileData url now p).licenseAndCertificates.length ≤ 5 ∧
    (processProfileData url now p).volunteerAndAwards.length ≤ 3 ∧
    (processProfileData url now p).interests = p.interests.getD [] ∧
    (processProfileData url now p).scrapedAt = now :=
  ⟨capped_list_length_le p.experiences 5,
   capped_list_length_le p.educations 3,
   capped_list_length_le p.skills 15,
   capped_list_length_le p.licenseAndCertificates 5,
   capped_list_length_le p.volunteerAndAwards 3,
   rfl, rfl⟩

/-- C1: the Decide step treats the LLM answer as "needs data" exactly
when the trimmed response equals `"YES"` case-insensitively (three
characters uppercasing to `Y`, `E`, `S`); when it does, the pipeline
runs Decide, Query-Generate, Retrieve, Compose in that order, and for
every other response it skips Query-Generate and Retrieve and composes
with an empty job list. -/
theorem c1_decide_gate :
    (∀ response : String,
      shouldSearchElasticsearch response = true ↔
        ∃ c1 c2 c3, (jsTrim response).data = [c1, c2, c3] ∧
          c1.toUpper = 'Y' ∧ c2.toUpper = 'E' ∧ c3.toUpper = 'S') ∧
    (∀ (query : String) (up : Option UserProfileReq) (hist : List ChatTurn)
        (llm : LLMOracle) (search : String → Except Unit (List EsHit)),
      jsTrim (sanitizeInput query) ≠ "" →
        (shouldSearchElasticsearch llm.decideResp = true →
          (handleJobSearch query up hist llm search).steps =
            [.decide, .queryGenerate, .retrieve, .compose]) ∧
        (shouldSearchElasticsearch llm.decideResp = false →
          (handleJobSearch query up hist llm search).steps = [.decide, .compose] ∧
          (handleJobSearch query up hist llm search).composeJobs = [] ∧
          (handleJobSearch query up hist llm search).composePromptBuilt =
            composePrompt (sanitizeInput query) up [] hist)) := by
  constructor
  · intro response
    rw [shouldSearchElasticsearch, beq_iff_eq]
    exact jsToUpperCase_eq_yes_iff (jsTrim response)
  · intro query up hist llm search hq
    constructor
    · intro hyes
      simp [handleJobSearch, hq, hyes]
    · intro hno
      refine ⟨?_, ?_, ?_⟩ <;> simp [handleJobSearch, hq, hno]

/-- C1 witness: a lowercase `" yes "` decision response (trimmed,
case-insensitive match) drives the full four-step pipeline. -/
theorem c1_decide_gate_witness :
    jsTrim (sanitizeInput "What skills do I need?") ≠ "" ∧
    (handleJobSearch "What skills do I need?" none []
        ⟨" yes ", "data scientist skills", "answer"⟩ (fun _ => .ok [])).steps =
      [.decide, .queryGenerate, .retrieve, .compose] := by
  refine ⟨by decide, ?_⟩
  exact (c1_decide_gate.2 "What skills do I need?" none []
    ⟨" yes ", "data scientist skills", "answer"⟩ (fun _ => .ok []) (by decide)).1 (by decide)

/-- C5: the Compose prompt renders at most the last 6 conversation
turns (a suffix of the supplied history), each with its content cut to
at most 200 characters, and at most the first 8 retrieved jobs, each
with its description cut to at most 150 characters, for every supplied
history and result list. -/
theorem c5_compose_caps (chatHistory : List ChatTurn) (searchResults : List SearchedJob) :
    (conversationWindow chatHistory).length ≤ 6 ∧
    conversationWindow chatHistory <:+ chatHistory ∧
    (∀ t ∈ conversationWindow chatHistory,
      conversationTurnLine t =
        (if t.role == "user" then "User" else "Assistant") ++ ": " ++
          substringTo t.content 200 ++
          (if 200 < t.content.length then "..." else "") ∧
      (substringTo t.content 200).length ≤ 200) ∧
    (jobSnippetWindow searchResults).length ≤ 8 ∧
    jobSnippetWindow searchResults <+: searchResults ∧
    (∀ i : Nat, ∀ j ∈ jobSnippetWindow searchResults,
      (∃ pre, jobSnippetLine i j = pre ++ substringTo j.source.description 150 ++ "...\n") ∧
      (substringTo j.source.description 150).length ≤ 150) := by
  refine ⟨?_, ?_, ?_, ?_, ?_, ?_⟩
  · simp only [conversationWindow, List.length_drop]
    omega
  · exact ⟨chatHistory.take (chatHistory.length - 6),
      List.take_append_drop (chatHistory.length - 6) chatHistory⟩
  · intro t _
    exact ⟨rfl, substringTo_length_le t.content 200⟩
  · simp only [jobSnippetWindow, List.length_take]
    omega
  · exact ⟨searchResults.drop 8, List.take_append_drop 8 searchResults⟩
  · intro i j _
    exact ⟨⟨_, rfl⟩, substringTo_length_le j.source.description 150⟩

/-- C5 witness: concrete evaluation on a history of 8 turns and a
result list of 9 jobs. -/
theorem c5_compose_caps_witness :
    (conversationWindow (List.replicate 8 ⟨"user", "hello"⟩)).length ≤ 6 ∧
    (⟨"user", "hello"⟩ : ChatTurn) ∈ conversationWindow (List.replicate 8 ⟨"user", "hello"⟩) ∧
    (substringTo (⟨"user", "hello"⟩ : ChatTurn).content 200).length ≤ 200 ∧
    (jobSnippetWindow (List.replicate 9 ⟨{ id := "j" }, "h", 1⟩)).length ≤ 8 := by
  refine ⟨(c5_compose_caps (List.replicate 8 ⟨"user", "hello"⟩) []).1, by decide, ?_, ?_⟩
  · exact ((c5_compose_caps (List.replicate 8 ⟨"user", "hello"⟩) []).2.2.1
      ⟨"user", "hello"⟩ (by decide)).2
  · exact (c5_compose_caps [] (List.replicate 9 ⟨{ id := "j" }, "h", 1⟩)).2.2.2.1

/-- C8: a failing search call is non-fatal on the orchestration path —
the handler substitutes an empty result set and still composes, and the
request still returns a success envelope — while the same failure on the
simple GET search path is propagated to the caller as a 500 error
response. -/
theorem c8_search_failure_handling (query : String) (up : Option UserProfileReq)
    (hist : List ChatTurn) (llm : LLMOracle)
    (search : String → Except Unit (List EsHit)) (limit : Nat) :
    (jsTrim (sanitizeInput query) ≠ "" →
      shouldSearchElasticsearch llm.decideResp = true →
      search (generateSearchQuery llm.queryResp) = .error () →
      (handleJobSearch query up hist llm search).response =
        .success ⟨[], llm.finalResp, 0⟩ ∧
      PipelineStep.compose ∈ (handleJobSearch query up hist llm search).steps ∧
      (handleJobSearch query up hist llm search).composeJobs = []) ∧
    (search (sanitizeInput query) = .error () →
      handleGetJobSearch query limit search =
        .error "Search service temporarily unavailable" 500) := by
  constructor
  · intro hq hyes hs
    refine ⟨?_, ?_, ?_⟩ <;> simp [handleJobSearch, hq, hyes, hs]
  · intro hs
    simp [handleGetJobSearch, hs]

/-- C8 witness: concrete evaluation with an always-failing search
oracle. -/
theorem c8_search_failure_handling_witness :
    (handleJobSearch "What are data jobs?" none [] ⟨"YES", "data jobs", "answer"⟩
        (fun _ => .error ())).response = .success ⟨[], "answer", 0⟩ ∧
    handleGetJobSearch "What are data jobs?" 20 (fun _ => .error ()) =
      .error "Search service temporarily unavailable" 500 := by
  have h := c8_search_failure_handling "What are data jobs?" none []
    ⟨"YES", "data jobs", "answer"⟩ (fun _ => .error ()) 20
  exact ⟨(h.1 (by decide) (by decide) rfl).1, h.2 rfl⟩

/-- C9: when the index-mapping setup fails, the job-statistics POST
handler aborts at once with an error response and never reaches the
scraping phase, whereas the scrape-jobs POST handler is entirely
insensitive to the setup outcome and (given valid keywords and
credentials) still attempts the scrape — the two ingestion entry points
treat the same failure oppositely. -/
theorem c9_init_failure_asymmetry (keywords location now : String)
    (w : ScrapeWorld) (sw : StatsWorld) :
    (sw.initOk = false →
      (handleJobStatistics keywords now sw).response =
        .error "Elasticsearch connection failed" 500 ∧
      (handleJobStatistics keywords now sw).scrapeAttempted = false) ∧
    (handleJobScraping keywords location now { w with initOk := false } =
      handleJobScraping keywords location now { w with initOk := true }) ∧
    (jsTrim (sanitizeInput keywords) ≠ "" → w.hasCreds = true →
      (handleJobScraping keywords location now { w with initOk := false }).scrapeAttempted
        = true) := by
  refine ⟨?_, rfl, ?_⟩
  · intro hinit
    constructor <;> simp [handleJobStatistics, hinit]
  · intro hk hc
    cases hs : w.syncOutcome with
    | ok results =>
        by_cases hr : results.length = 0
        · simp [handleJobScraping, hk, hc, hs, hr, handleJobScrapingAsync_attempted]
        · simp [handleJobScraping, hk, hc, hs, hr]
    | thrown => simp [handleJobScraping, hk, hc, hs, handleJobScrapingAsync_attempted]
    | nonOk => simp [handleJobScraping, hk, hc, hs, handleJobScrapingAsync_attempted]

/-- C9 witness: concrete evaluation with a failed setup call on both
handlers. -/
theorem c9_init_failure_asymmetry_witness :
    (handleJobStatistics "software engineer" "2024-01-01T00:00:00.000Z"
        ⟨false, true, .ok [], "stats"⟩).scrapeAttempted = false ∧
    (handleJobScraping "software engineer" "United States" "2024-01-01T00:00:00.000Z"
        { initOk := false, hasCreds := true, syncOutcome := .ok [{ title := some "Engineer" }],
          runStart := .started, polls := [] }).scrapeAttempted = true := by
  have h := c9_init_failure_asymmetry "software engineer" "United States"
    "2024-01-01T00:00:00.000Z"
    { initOk := false, hasCreds := true, syncOutcome := .ok [{ title := some "Engineer" }],
      runStart := .started, polls := [] }
    ⟨false, true, .ok [], "stats"⟩
  exact ⟨(h.1 rfl).2, h.2.2 (by decide) rfl⟩

/-- A scrape run in which the synchronous call returns zero items and
every one of the 24 polling attempts of the asynchronous run returns an
empty dataset with a non-`FAILED` status: both phases exhaust without
producing results. -/
def exhaustedScrapeWorld : ScrapeWorld :=
  { initOk := true, hasCreds := true, syncOutcome := .ok [],
    runStart := .started, polls := List.replicate 24 ⟨.ok [], false⟩ }

/-- C2 counterexample: when both the sync phase and the async polling
phase of a job scrape exhaust without producing results, the scrape-jobs
handler does NOT return the three `demo-*` placeholder records — it
returns a 500 timeout error response, refuting the claimed
placeholder-on-exhaustion behaviour. -/
theorem c2_exhaustion_counterexample :
    (handleJobScraping "engineer" "United States" "2024-01-01T00:00:00.000Z"
        exhaustedScrapeWorld).response =
      .error "LinkedIn job scraping timed out or no jobs found" 500 ∧
    (handleJobScraping "engineer" "United States" "2024-01-01T00:00:00.000Z"
        exhaustedScrapeWorld).response ≠
      .success (demoJobs "engineer" "2024-01-01T00:00:00.000Z") := by
  constructor
  · rfl
  · decide

/-- A profile-scrape run whose sync call returns zero items and whose 20
polling attempts all return empty datasets with non-`FAILED` status. -/
def exhaustedProfileWorld : ProfileScrapeWorld :=
  { hasCreds := true, syncOutcome := .ok [],
    runStart := .started, polls := List.replicate 20 ⟨.ok [], false⟩ }

/-- C2 (amended): when both scrape phases exhaust without results, the
scrape-jobs handler returns a 500 timeout error response — exactly as
the scrape-linkedin handler does in the same situation — and the three
placeholder records `demo-1`, `demo-2`, `demo-3` are produced only on
the distinct path where the handler body throws (modelled here by the
async run-start call throwing), which the outer `catch` converts into a
success envelope of demo data. -/
theorem c2_exhaustion_amended (keywords location now url : String)
    (w : ScrapeWorld) (pw : ProfileScrapeWorld) :
    (jsTrim (sanitizeInput keywords) ≠ "" → w.hasCreds = true →
      syncNoResults w.syncOutcome = true → w.runStart = .started →
      (∀ p ∈ w.polls, silentStep p = true) →
      (handleJobScraping keywords location now w).response =
        .error "LinkedIn job scraping timed out or no jobs found" 500) ∧
    (jsTrim (sanitizeInput keywords) ≠ "" → w.hasCreds = true →
      syncNoResults w.syncOutcome = true → w.runStart = .thrown →
      (handleJobScraping keywords location now w).response =
        .success (demoJobs keywords now) ∧
      (demoJobs keywords now).map JobData.id = ["demo-1", "demo-2", "demo-3"]) ∧
    (sanitizeInput url ≠ "" → pw.hasCreds = true →
      syncNoResults pw.syncOutcome = true → pw.runStart = .started →
      (∀ p ∈ pw.polls, silentStep p = true) →
      handleLinkedInScraping url now pw =
        .error "LinkedIn scraping timed out or failed" 500) := by
  refine ⟨?_, ?_, ?_⟩
  · intro hk hc hsync hstart hpolls
    have hex : pollLoop (w.polls.take 24) = .exhausted :=
      pollLoop_exhausted _ (fun p hp => hpolls p (List.take_subset 24 w.polls hp))
    cases hs : w.syncOutcome with
    | ok results =>
        rw [hs] at hsync
        have : results = [] := by simpa [syncNoResults] using hsync
        subst this
        simp [handleJobScraping, hk, hc, hs, handleJobScraping.handleJobScrapingAsync,
          hstart, hex]
    | thrown =>
        simp [handleJobScraping, hk, hc, hs, handleJobScraping.handleJobScrapingAsync,
          hstart, hex]
    | nonOk =>
        simp [handleJobScraping, hk, hc, hs, handleJobScraping.handleJobScrapingAsync,
          hstart, hex]
  · intro hk hc hsync hthrown
    refine ⟨?_, rfl⟩
    cases hs : w.syncOutcome with
    | ok results =>
        rw [hs] at hsync
        have : results = [] := by simpa [syncNoResults] using hsync
        subst this
        simp [handleJobScraping, hk, hc, hs, handleJobScraping.handleJobScrapingAsync, hthrown]
    | thrown =>
        simp [handleJobScraping, hk, hc, hs, handleJobScraping.handleJobScrapingAsync, hthrown]
    | nonOk =>
        simp [handleJobScraping, hk, hc, hs, handleJobScraping.handleJobScrapingAsync, hthrown]
  · intro hu hc hsync hstart hpolls
    have hex : pollLoop (pw.polls.take 20) = .exhausted :=
      pollLoop_exhausted _ (fun p hp => hpolls p (List.take_subset 20 pw.polls hp))
    cases hs : pw.syncOutcome with
    | ok results =>
        rw [hs] at hsync
        have : results = [] := by simpa [syncNoResults] using hsync
        subst this
        simp [handleLinkedInScraping, hu, hc, hs,
          handleLinkedInScraping.handleLinkedInScrapingAsync, hstart, hex]
    | thrown =>
        simp [handleLinkedInScraping, hu, hc, hs,
          handleLinkedInScraping.handleLinkedInScrapingAsync, hstart, hex]
    | nonOk =>
        simp [handleLinkedInScraping, hu, hc, hs,
          handleLinkedInScraping.handleLinkedInScrapingAsync, hstart, hex]

/-- C2 witness: concrete evaluation of the amended claim on the
exhausted worlds and on a run whose async start throws. -/
theorem c2_exhaustion_amended_witness :
    handleLinkedInScraping "https://www.linkedin.com/in/jane" "2024-01-01T00:00:00.000Z"
        exhaustedProfileWorld =
      .error "LinkedIn scraping timed out or failed" 500 ∧
    (handleJobScraping "engineer" "United States" "2024-01-01T00:00:00.000Z"
        { exhaustedScrapeWorld with runStart := .thrown }).response =
      .success (demoJobs "engineer" "2024-01-01T00:00:00.000Z") := by
  have h := c2_exhaustion_amended "engineer" "United States" "2024-01-01T00:00:00.000Z"
    "https://www.linkedin.com/in/jane"
    { exhaustedScrapeWorld with runStart := .thrown } exhaustedProfileWorld
  refine ⟨h.2.2 (by decide) rfl rfl rfl ?_, (h.2.1 (by decide) rfl rfl rfl).1⟩
  intro p hp
  have : p = ⟨.ok [], false⟩ := List.eq_of_mem_replicate hp
  subst this
  rfl

/-- A scrape run whose synchronous call returns one raw job. -/
def syncOkScrapeWorld : ScrapeWorld :=
  { initOk := true, hasCreds := true,
    syncOutcome := .ok [{ title := some "Java Developer" }],
    runStart := .started, polls := [] }

/-- C3 counterexample: the `keywords` tag written into every indexed job
document is the RAW request keywords (lowercased), not the sanitized
value — for the input `"<b>java"` the document stores `"<b>java"`
verbatim even though the Sanitizer would strip the markup, so
unsanitized user input does reach the documents written to the search
index. -/
theorem c3_raw_keywords_counterexample :
    ((handleJobScraping "<b>java" "United States" "2024-01-01T00:00:00.000Z"
        syncOkScrapeWorld).indexedDocs.map ElasticsearchJobData.keywords) = [["<b>java"]] ∧
    sanitizeInput "<b>java" ≠ "<b>java" := by
  constructor
  · rfl
  · decide

/-- C3 (amended): the chat question is embedded in the Decide and
Compose prompts only after passing through the Sanitizer, and the
outbound LinkedIn search URL is built from the sanitized keywords and
location; but the `keywords` tag of every document the scrape-jobs
handler sends to the index is the raw request keywords, merely
lowercased. -/
theorem c3_sanitization_amended (q keywords location now : String)
    (up : Option UserProfileReq) (results : List SearchedJob)
    (hist : List ChatTurn) (w : ScrapeWorld) :
    (∃ pre post, decidePrompt q up = pre ++ sanitizeInput q ++ post) ∧
    (∃ pre post, composePrompt q up results hist = pre ++ sanitizeInput q ++ post) ∧
    jobSearchUrlParts keywords location =
      ⟨jsTrim (sanitizeInput keywords), sanitizeInput location⟩ ∧
    (∀ d ∈ (handleJobScraping keywords location now w).indexedDocs,
      d.keywords = [jsToLowerCase keywords]) := by
  refine ⟨⟨_, _, rfl⟩, ⟨_, _, rfl⟩, rfl, ?_⟩
  by_cases hk : jsTrim (sanitizeInput keywords) = ""
  · intro d hd
    simp [handleJobScraping, hk] at hd
  · by_cases hc : w.hasCreds = false
    · intro d hd
      simp [handleJobScraping, hk, hc] at hd
    · cases hs : w.syncOutcome with
      | ok items =>
          by_cases hr : items.length = 0
          · intro d hd
            simp only [handleJobScraping, hk, if_neg (by simpa using hk), hc, hs, hr] at hd
            exact handleJobScrapingAsync_docs_keywords keywords location now w d
              (by simpa [handleJobScraping, hk, hc, hs, hr] using hd)
          · intro d hd
            simp [handleJobScraping, hk, hc, hs, hr, List.mem_map] at hd
            obtain ⟨j, _, rfl⟩ := hd
            rfl
      | thrown =>
          intro d hd
          exact handleJobScrapingAsync_docs_keywords keywords location now w d
            (by simpa [handleJobScraping, hk, hc, hs] using hd)
      | nonOk =>
          intro d hd
          exact handleJobScrapingAsync_docs_keywords keywords location now w d
            (by simpa [handleJobScraping, hk, hc, hs] using hd)

/-- C3 witness: concrete evaluation — the sanitized question appears in
the Decide prompt, and the one indexed document of a concrete scrape run
carries the raw lowercased keywords tag. -/
theorem c3_sanitization_amended_witness :
    (∃ pre post,
      decidePrompt "What skills<script>" none =
        pre ++ sanitizeInput "What skills<script>" ++ post) ∧
    ({ title := "Java Developer", location := "United States", companySize := "0",
        scrapedAt := "2024-01-01T00:00:00.000Z",
        keywords := ["<b>java"] } : ElasticsearchJobData) ∈
      (handleJobScraping "<b>java" "United States" "2024-01-01T00:00:00.000Z"
        syncOkScrapeWorld).indexedDocs ∧
    ({ title := "Java Developer", location := "United States", companySize := "0",
        scrapedAt := "2024-01-01T00:00:00.000Z",
        keywords := ["<b>java"] } : ElasticsearchJobData).keywords =
      [jsToLowerCase "<b>java"] := by
  have h := c3_sanitization_amended "What skills<script>" "<b>java" "United States"
    "2024-01-01T00:00:00.000Z" none [] [] syncOkScrapeWorld
  refine ⟨h.1, by decide, ?_⟩
  exact h.2.2.2
    { title := "Java Developer", location := "United States", companySize := "0",
      scrapedAt := "2024-01-01T00:00:00.000Z", keywords := ["<b>java"] }
    (by decide)
